import Mathlib

/-!
Verification model of the studio booking system (conflict detector and
recurrence expander).

Modelling conventions:
* Wall-clock times of day and calendar dates are modelled as `Nat` keys.
  The database columns are `time` and `date` types, which Postgres compares
  as times/dates; the zero-padded "HH:MM" strings used at the API boundary
  order-embed into minutes-of-day, so `≤` on `Nat` is exactly the order the
  `lte`/`gte` query operators use.  Dates are day numbers (`rataDie` below
  converts a civil date to its day number); the conflict query only tests
  dates for equality, and the recurrence loop only adds day offsets.
* The reservation store (the `bookings` and `rooms` tables) is an explicit
  `Store` value threaded through each operation; `nextId` models the
  identity column (`generatedAlwaysAsIdentity`, so real ids are ≥ 1).
* Timestamp bookkeeping columns (`createdAt`, `updatedAt`) and the derived
  total-minutes columns are omitted: no scheduling decision reads them.
-/

/-- A row of the `rooms` table (fields the scheduling core reads). -/
structure Room where
  id : Nat
  ignoreConflict : Bool
deriving Repr, DecidableEq

/-- A row of the `bookings` table (fields the scheduling core reads or copies). -/
structure Booking where
  id : Nat
  date : Nat
  bookingFromTime : Nat
  bookingToTime : Nat
  actualFromTime : Option Nat
  actualToTime : Option Nat
  breakMinutes : Option Nat
  customerId : Option Nat
  projectId : Option Nat
  roomId : Nat
  editorId : Option Nat
  contactPerson : Option String
  status : Option String
  remarks : Option String
  isCancelled : Bool
  cancelReason : Option String
deriving Repr, DecidableEq

/-- The persistent state the core reads and writes: the `rooms` and
`bookings` tables plus the next identity value for inserted bookings. -/
structure Store where
  rooms : List Room
  bookings : List Booking
  nextId : Nat
deriving Repr, DecidableEq

/-- An insert payload for `bookings` (the fields the repeat route passes to
`createBooking`; identity, cancellation state and timestamps come from
column defaults). -/
structure InsertBooking where
  date : Nat
  bookingFromTime : Nat
  bookingToTime : Nat
  actualFromTime : Option Nat
  actualToTime : Option Nat
  breakMinutes : Option Nat
  customerId : Option Nat
  projectId : Option Nat
  roomId : Nat
  editorId : Option Nat
  contactPerson : Option String
  status : Option String
  remarks : Option String
deriving Repr, DecidableEq

/-- `getRoom`: `select from rooms where id = roomId`, first row if any. -/
def getRoom (s : Store) (roomId : Nat) : Option Room :=
  s.rooms.find? (fun r => r.id == roomId)

/-- `getBooking`: `select from bookings where id = id`, first row if any
(the relation joins of the source are irrelevant to scheduling). -/
def getBooking (s : Store) (id : Nat) : Option Booking :=
  s.bookings.find? (fun b => b.id == id)

/-- `createBooking`: insert a row; the identity column assigns `nextId`,
`isCancelled` defaults to `false`, `cancelReason` to null. -/
def createBooking (s : Store) (nb : InsertBooking) : Store × Booking :=
  let b : Booking :=
    { id := s.nextId
      date := nb.date
      bookingFromTime := nb.bookingFromTime
      bookingToTime := nb.bookingToTime
      actualFromTime := nb.actualFromTime
      actualToTime := nb.actualToTime
      breakMinutes := nb.breakMinutes
      customerId := nb.customerId
      projectId := nb.projectId
      roomId := nb.roomId
      editorId := nb.editorId
      contactPerson := nb.contactPerson
      status := nb.status
      remarks := nb.remarks
      isCancelled := false
      cancelReason := none }
  ({ s with bookings := s.bookings ++ [b], nextId := s.nextId + 1 }, b)

/-- The `set` clause of `cancelBooking`: `isCancelled = true`,
`cancelReason = reason`, `status = "Cancelled"` (plus a timestamp touch the
model omits). -/
def applyCancel (reason : String) (b : Booking) : Booking :=
  { b with isCancelled := true, cancelReason := some reason, status := some "Cancelled" }

/-- `cancelBooking`: `update bookings set ... where id = id returning`;
yields the new store and the first updated row if any. -/
def cancelBooking (s : Store) (id : Nat) (reason : String) : Store × Option Booking :=
  ({ s with
      bookings := s.bookings.map (fun b => if b.id = id then applyCancel reason b else b) },
   (s.bookings.find? (fun b => b.id == id)).map (applyCancel reason))

/-- The OR of three AND-clauses in the conflict query of
`checkBookingConflict` (new booking starts during an existing booking, or
ends during one, or encompasses one), with the non-strict `lte`/`gte`
operators of the source. -/
def overlapTriple (existingFrom existingTo fromTime toTime : Nat) : Bool :=
  (decide (existingFrom ≤ fromTime) && decide (existingTo ≥ fromTime)) ||
  (decide (existingFrom ≤ toTime) && decide (existingTo ≥ toTime)) ||
  (decide (existingFrom ≥ fromTime) && decide (existingTo ≤ toTime))

/-- The standard closed-interval overlap test, written from the spec
sentence `existingFrom <= candidateTo AND existingTo >= candidateFrom`
(for comparison against the detector's `overlapTriple`). -/
def overlapStd (existingFrom existingTo fromTime toTime : Nat) : Bool :=
  decide (existingFrom ≤ toTime) && decide (existingTo ≥ fromTime)

/-- The `where` clause of the conflict query: same room, same date,
`isCancelled = false`, and the three-way overlap disjunction. -/
def conflictQuery (s : Store) (roomId date fromTime toTime : Nat) : List Booking :=
  s.bookings.filter (fun b =>
    b.roomId == roomId && b.date == date && b.isCancelled == false &&
      overlapTriple b.bookingFromTime b.bookingToTime fromTime toTime)

/-- `checkBookingConflict`: the override check (`room?.ignoreConflict`,
where a missing room reads as a falsy `undefined`), the conflict query,
the self-exclusion filter, and the non-emptiness test.  The source guards
the filter with JS truthiness (`excludeId ? ... : ...`), so an
`excludeId` of `0` skips the filter exactly like an absent one. -/
def checkBookingConflict (s : Store) (roomId date fromTime toTime : Nat)
    (excludeId : Option Nat) : Bool :=
  if (getRoom s roomId).elim false Room.ignoreConflict then
    false
  else
    let conflicting : List Booking := conflictQuery s roomId date fromTime toTime
    let filtered : List Booking :=
      match excludeId with
      | some e => if e != 0 then conflicting.filter (fun b => b.id != e) else conflicting
      | none => conflicting
    decide (0 < filtered.length)

/-- Day number of a civil date (proleptic Gregorian, valid for years ≥ 1);
`rataDie 1970 1 1 = 719468`.  Used to write concrete calendar dates. -/
def rataDie (y m d : Nat) : Nat :=
  let y2 := if m ≤ 2 then y - 1 else y
  let era := y2 / 400
  let yoe := y2 % 400
  let mp := (m + 9) % 12
  let doy := (153 * mp + 2) / 5 + d - 1
  let doe := yoe * 365 + yoe / 4 - yoe / 100 + doy
  era * 146097 + doe

/-- Day of week in the JS `Date.getDay` convention (0 = Sunday ... 6 =
Saturday); day 719468 (1970-01-01) is a Thursday (4). -/
def getDay (d : Nat) : Nat := (d + 3) % 7

/-- The `isWeekend` predicate of date-fns: Saturday or Sunday. -/
def isWeekend (d : Nat) : Bool := getDay d == 0 || getDay d == 6

/-- The two `continue` guards of the repeat loop, negated: offset `i` from
`startDate` receives an occurrence iff it is not skipped by the
`weekdays` guard nor by the `weekly` guard. -/
def includeOffset (repeatPattern : String) (startDate i : Nat) : Bool :=
  !(repeatPattern == "weekdays" && isWeekend (startDate + i)) &&
  !(repeatPattern == "weekly" && i % 7 != 0)

/-- The insert payload the repeat route builds for one occurrence date:
every field copied verbatim from the original booking, only `date`
replaced. -/
def candidateOf (orig : Booking) (date : Nat) : InsertBooking :=
  { date := date
    bookingFromTime := orig.bookingFromTime
    bookingToTime := orig.bookingToTime
    actualFromTime := orig.actualFromTime
    actualToTime := orig.actualToTime
    breakMinutes := orig.breakMinutes
    customerId := orig.customerId
    projectId := orig.projectId
    roomId := orig.roomId
    editorId := orig.editorId
    contactPerson := orig.contactPerson
    status := orig.status
    remarks := orig.remarks }

/-- The body of the repeat route's `for` loop, one recursion step per day
offset, in ascending order, threading the store (each insert is visible to
later conflict checks) and accumulating the created bookings. -/
def repeatGo (orig : Booking) (startDate : Nat) (repeatPattern : String) :
    List Nat → Store → List Booking → Store × List Booking
  | [], s, created => (s, created)
  | i :: rest, s, created =>
    let currentDate := startDate + i
    if repeatPattern == "weekdays" && isWeekend currentDate then
      repeatGo orig startDate repeatPattern rest s created
    else if repeatPattern == "weekly" && i % 7 != 0 then
      repeatGo orig startDate repeatPattern rest s created
    else if checkBookingConflict s orig.roomId currentDate
        orig.bookingFromTime orig.bookingToTime none then
      repeatGo orig startDate repeatPattern rest s created
    else
      let res := createBooking s (candidateOf orig currentDate)
      repeatGo orig startDate repeatPattern rest res.1 (created ++ [res.2])

/-- Failure modes of the repeat route (404 original not found, 400 invalid
range). -/
inductive RepeatError
  | originalNotFound
  | invalidRange
deriving Repr, DecidableEq

/-- The repeat route handler: load the original booking (404 if missing),
reject a negative `differenceInDays` (400), then run the loop over day
offsets `0 .. daysDiff` and answer with the list of created bookings (the
response reports its length as the count).  The returned store is the
post-state of the database. -/
def createRepeatBookings (s : Store) (id fromDate toDate : Nat)
    (repeatPattern : String) : Store × Except RepeatError (List Booking) :=
  match getBooking s id with
  | none => (s, Except.error RepeatError.originalNotFound)
  | some orig =>
    if (toDate : Int) - (fromDate : Int) < 0 then
      (s, Except.error RepeatError.invalidRange)
    else
      let daysDiff := toDate - fromDate
      let r := repeatGo orig fromDate repeatPattern (List.range (daysDiff + 1)) s []
      (r.1, Except.ok r.2)

/-- The ten template fields that C7 of the spec says an occurrence copies
verbatim (reducible so that concrete instances stay decidable). -/
abbrev copiesTemplate (orig b : Booking) : Prop :=
  b.roomId = orig.roomId ∧ b.bookingFromTime = orig.bookingFromTime ∧
  b.bookingToTime = orig.bookingToTime ∧ b.breakMinutes = orig.breakMinutes ∧
  b.customerId = orig.customerId ∧ b.projectId = orig.projectId ∧
  b.editorId = orig.editorId ∧ b.contactPerson = orig.contactPerson ∧
  b.status = orig.status ∧ b.remarks = orig.remarks

/-! ### Concrete stores used by witnesses and counterexamples -/

/-- A stored booking with the given identity, date, window, room and
cancellation state (the remaining columns hold arbitrary fixed data). -/
def mkBooking (id date f t roomId : Nat) (cancelled : Bool) : Booking :=
  { id := id
    date := date
    bookingFromTime := f
    bookingToTime := t
    actualFromTime := some f
    actualToTime := none
    breakMinutes := some 0
    customerId := some 4
    projectId := none
    roomId := roomId
    editorId := some 2
    contactPerson := some "Ann"
    status := some "Confirmed"
    remarks := some "demo"
    isCancelled := cancelled
    cancelReason := none }

/-- Day number of 2024-01-01 (a Monday). -/
def jan1 : Nat := rataDie 2024 1 1

/-- One room without override and one booking 09:00-10:00 on day 100. -/
def plainStore : Store :=
  { rooms := [{ id := 1, ignoreConflict := false }]
    bookings := [mkBooking 1 100 540 600 1 false]
    nextId := 2 }

/-- A room with `ignoreConflict := true` and a booking 09:00-10:00. -/
def overrideStore : Store :=
  { rooms := [{ id := 3, ignoreConflict := true }]
    bookings := [mkBooking 1 100 540 600 3 false]
    nextId := 2 }

/-- A booking for a room id that the rooms table does not contain. -/
def roomlessStore : Store :=
  { rooms := []
    bookings := [mkBooking 1 100 540 600 1 false]
    nextId := 2 }

/-- A template booking dated outside the expansion ranges used below. -/
def farTemplate : Booking := mkBooking 1 (rataDie 2023 6 1) 540 600 1 false

/-- A store whose only booking is `farTemplate`: expansions over January
2024 meet no conflicts. -/
def freeStore : Store :=
  { rooms := [{ id := 1, ignoreConflict := false }]
    bookings := [farTemplate]
    nextId := 2 }

/-- A template on `jan1` plus a second booking on the following day whose
window overlaps it: every date of a two-day expansion from `jan1`
conflicts. -/
def fullStore : Store :=
  { rooms := [{ id := 1, ignoreConflict := false }]
    bookings := [mkBooking 1 jan1 540 600 1 false, mkBooking 2 (jan1 + 1) 560 620 1 false]
    nextId := 3 }

/-- A template on `jan1` in a room with `ignoreConflict := true`. -/
def overrideTemplateStore : Store :=
  { rooms := [{ id := 7, ignoreConflict := true }]
    bookings := [mkBooking 1 jan1 540 600 7 false]
    nextId := 2 }

/-- A template on `jan1` in an ordinary room, with no other booking. -/
def templateStore : Store :=
  { rooms := [{ id := 1, ignoreConflict := false }]
    bookings := [mkBooking 1 jan1 540 600 1 false]
    nextId := 2 }

/-! ### Basic facts about the overlap test -/

lemma overlapTriple_true_iff (eF eT cF cT : Nat) (he : eF ≤ eT) (hc : cF ≤ cT) :
    overlapTriple eF eT cF cT = true ↔ (eF ≤ cT ∧ cF ≤ eT) := by
  simp only [overlapTriple, Bool.or_eq_true, Bool.and_eq_true, decide_eq_true_eq, ge_iff_le]
  omega

lemma self_overlap (f t : Nat) : overlapTriple f t f t = true := by
  simp [overlapTriple]

/-- C3: the OR'd three-way overlap test of the detector agrees with the
standard closed-interval test on every pair of intervals (both endpoints
ordered), including exact boundary touches. -/
theorem overlapTriple_equals_standard (eF eT cF cT : Nat)
    (he : eF ≤ eT) (hc : cF ≤ cT) :
    overlapTriple eF eT cF cT = overlapStd eF eT cF cT := by
  have h1 := overlapTriple_true_iff eF eT cF cT he hc
  have h2 : overlapStd eF eT cF cT = true ↔ (eF ≤ cT ∧ cF ≤ eT) := by
    simp only [overlapStd, Bool.and_eq_true, decide_eq_true_eq, ge_iff_le]
  cases hs : overlapStd eF eT cF cT with
  | true => exact h1.mpr (h2.mp hs)
  | false =>
    cases ht : overlapTriple eF eT cF cT with
    | true => rw [hs] at h2; rw [ht] at h1; exact absurd (h1.mp rfl) (by simpa using h2)
    | false => rfl

/-- Witness for C3 at a boundary touch: existing 09:00-10:00 versus
candidate 10:00-11:00 (minutes of day). -/
theorem overlapTriple_equals_standard_witness :
    540 ≤ 600 ∧ 600 ≤ 660 ∧ overlapTriple 540 600 600 660 = overlapStd 540 600 600 660 :=
  ⟨by decide, by decide, overlapTriple_equals_standard 540 600 600 660 (by decide) (by decide)⟩

/-! ### The override flag (C2) -/

/-- C2: a room whose `ignoreConflict` flag is set never reports a
conflict, for any date, window or exclusion, regardless of what is
stored. -/
theorem ignoreConflict_room_never_conflicts (s : Store)
    (roomId date fromTime toTime : Nat) (excludeId : Option Nat) (room : Room)
    (hfind : getRoom s roomId = some room) (hig : room.ignoreConflict = true) :
    checkBookingConflict s roomId date fromTime toTime excludeId = false := by
  unfold checkBookingConflict
  rw [hfind]
  simp [Option.elim, hig]

/-- Witness for C2: the store holds a non-cancelled booking with the exact
same window the candidate asks for, yet no conflict is reported. -/
theorem ignoreConflict_room_never_conflicts_witness :
    getRoom overrideStore 3 = some { id := 3, ignoreConflict := true } ∧
    ({ id := 3, ignoreConflict := true } : Room).ignoreConflict = true ∧
    checkBookingConflict overrideStore 3 100 540 600 none = false :=
  ⟨by decide, by decide,
    ignoreConflict_room_never_conflicts overrideStore 3 100 540 600 none
      { id := 3, ignoreConflict := true } (by decide) (by decide)⟩

/-! ### Invalid range (C5) -/

/-- C5: with the recurrence template resolved but `toDate` strictly before
`fromDate`, the repeat operation answers `invalidRange` and leaves the
store exactly as it was: the date-order check precedes every occurrence
computation and every insert. -/
theorem invalidRange_no_partial_work (s : Store) (id fromDate toDate : Nat)
    (repeatPattern : String) (orig : Booking)
    (hfind : getBooking s id = some orig) (hlt : toDate < fromDate) :
    createRepeatBookings s id fromDate toDate repeatPattern =
      (s, Except.error RepeatError.invalidRange) := by
  unfold createRepeatBookings
  rw [hfind]
  have h : (toDate : Int) - (fromDate : Int) < 0 := by omega
  simp [h]

/-- Witness for C5: a resolvable template with a reversed two-day range. -/
theorem invalidRange_no_partial_work_witness :
    getBooking plainStore 1 = some (mkBooking 1 100 540 600 1 false) ∧ 98 < 100 ∧
    createRepeatBookings plainStore 1 100 98 "daily" =
      (plainStore, Except.error RepeatError.invalidRange) :=
  ⟨by decide, by decide,
    invalidRange_no_partial_work plainStore 1 100 98 "daily"
      (mkBooking 1 100 540 600 1 false) (by decide) (by decide)⟩

/-! ### Missing room (C8) -/

/-- C8: when the rooms table has no row for `roomId`, the detector does
not fail and does not take the override branch: it returns exactly what it
would return if that room existed with `ignoreConflict = false`. -/
theorem missing_room_enforces_conflicts (s : Store)
    (roomId date fromTime toTime : Nat) (excludeId : Option Nat)
    (h : getRoom s roomId = none) :
    checkBookingConflict s roomId date fromTime toTime excludeId =
      checkBookingConflict
        { s with rooms := s.rooms ++ [{ id := roomId, ignoreConflict := false }] }
        roomId date fromTime toTime excludeId := by
  have h2 : getRoom
      { s with rooms := s.rooms ++ [{ id := roomId, ignoreConflict := false }] } roomId
      = some { id := roomId, ignoreConflict := false } := by
    unfold getRoom at h ⊢
    rw [List.find?_append, h]
    simp [List.find?]
  unfold checkBookingConflict
  rw [h, h2]
  rfl

/-- Witness for C8: a store with an empty rooms table; the lone stored
booking still blocks an overlapping candidate. -/
theorem missing_room_enforces_conflicts_witness :
    getRoom roomlessStore 1 = none ∧
    checkBookingConflict roomlessStore 1 100 550 610 none =
      checkBookingConflict
        { roomlessStore with
            rooms := roomlessStore.rooms ++ [{ id := 1, ignoreConflict := false }] }
        1 100 550 610 none ∧
    checkBookingConflict roomlessStore 1 100 550 610 none = true :=
  ⟨by decide,
    missing_room_enforces_conflicts roomlessStore 1 100 550 610 none (by decide),
    by decide⟩

/-! ### Cancellation (C9) -/

/-- C9: cancelling is a soft delete: the bookings table keeps the same
rows in the same positions; the row with the cancelled id gets
`isCancelled = true`, `status = "Cancelled"` and the supplied reason, and
`applyCancel` leaves every other column of the row unchanged; rows with a
different id are untouched. -/
theorem cancelBooking_soft_delete (s : Store) (id : Nat) (reason : String) :
    (cancelBooking s id reason).1.bookings.length = s.bookings.length ∧
    (∀ i : Nat, (cancelBooking s id reason).1.bookings[i]? =
      s.bookings[i]?.map (fun b => if b.id = id then applyCancel reason b else b)) ∧
    ∀ b : Booking,
      (applyCancel reason b).isCancelled = true ∧
      (applyCancel reason b).status = some "Cancelled" ∧
      (applyCancel reason b).cancelReason = some reason ∧
      (applyCancel reason b).id = b.id ∧
      (applyCancel reason b).roomId = b.roomId ∧
      (applyCancel reason b).date = b.date ∧
      (applyCancel reason b).bookingFromTime = b.bookingFromTime ∧
      (applyCancel reason b).bookingToTime = b.bookingToTime ∧
      (applyCancel reason b).actualFromTime = b.actualFromTime ∧
      (applyCancel reason b).actualToTime = b.actualToTime ∧
      (applyCancel reason b).breakMinutes = b.breakMinutes ∧
      (applyCancel reason b).customerId = b.customerId ∧
      (applyCancel reason b).projectId = b.projectId ∧
      (applyCancel reason b).editorId = b.editorId ∧
      (applyCancel reason b).contactPerson = b.contactPerson ∧
      (applyCancel reason b).remarks = b.remarks := by
  refine ⟨?_, ?_, ?_⟩
  · simp [cancelBooking]
  · intro i
    simp [cancelBooking, List.getElem?_map]
  · intro b
    simp [applyCancel]

/-! ### Unknown patterns behave as daily (C10) -/

lemma repeatGo_pattern_congr (orig : Booking) (startDate : Nat) (p q : String)
    (h1 : (p == "weekdays") = (q == "weekdays"))
    (h2 : (p == "weekly") = (q == "weekly")) :
    ∀ (l : List Nat) (s : Store) (created : List Booking),
      repeatGo orig startDate p l s created = repeatGo orig startDate q l s created := by
  intro l
  induction l with
  | nil => intro s created; rfl
  | cons i rest ih =>
    intro s created
    simp only [repeatGo, h1, h2]
    split
    · exact ih s created
    · split
      · exact ih s created
      · split
        · exact ih s created
        · exact ih _ _

/-- C10: any pattern other than `weekdays` and `weekly` skips nothing
(every offset is included) and the whole repeat operation behaves exactly
as with `daily`. -/
theorem unrecognized_pattern_behaves_like_daily (s : Store)
    (id fromDate toDate startDate i : Nat) (repeatPattern : String)
    (hw : repeatPattern ≠ "weekdays") (hk : repeatPattern ≠ "weekly") :
    includeOffset repeatPattern startDate i = true ∧
    createRepeatBookings s id fromDate toDate repeatPattern =
      createRepeatBookings s id fromDate toDate "daily" := by
  have h1 : (repeatPattern == "weekdays") = false := by
    rw [beq_eq_false_iff_ne]; exact hw
  have h2 : (repeatPattern == "weekly") = false := by
    rw [beq_eq_false_iff_ne]; exact hk
  refine ⟨by simp [includeOffset, h1, h2], ?_⟩
  unfold createRepeatBookings
  cases hb : getBooking s id with
  | none => rfl
  | some orig =>
    simp only []
    rw [repeatGo_pattern_congr orig fromDate repeatPattern "daily"
      (by rw [h1]; rfl) (by rw [h2]; rfl)]

/-- Witness for C10: the misspelt pattern string behaves as daily on a
concrete two-day expansion. -/
theorem unrecognized_pattern_behaves_like_daily_witness :
    ("dialy" : String) ≠ "weekdays" ∧ ("dialy" : String) ≠ "weekly" ∧
    (includeOffset "dialy" jan1 5 = true ∧
      createRepeatBookings freeStore 1 jan1 (jan1 + 1) "dialy" =
        createRepeatBookings freeStore 1 jan1 (jan1 + 1) "daily") :=
  ⟨by decide, by decide,
    unrecognized_pattern_behaves_like_daily freeStore 1 jan1 (jan1 + 1) jan1 5 "dialy"
      (by decide) (by decide)⟩

/-! ### The conflict detector characterized (C1) -/

lemma mem_conflictQuery (s : Store) (roomId date fromTime toTime : Nat) (b : Booking) :
    b ∈ conflictQuery s roomId date fromTime toTime ↔
      b ∈ s.bookings ∧ b.roomId = roomId ∧ b.date = date ∧ b.isCancelled = false ∧
        overlapTriple b.bookingFromTime b.bookingToTime fromTime toTime = true := by
  simp only [conflictQuery, List.mem_filter, Bool.and_eq_true, beq_iff_eq]
  tauto

lemma checkBookingConflict_none_eq (s : Store) (roomId date fromTime toTime : Nat)
    (hov : (getRoom s roomId).elim false Room.ignoreConflict = false) :
    checkBookingConflict s roomId date fromTime toTime none =
      decide (0 < (conflictQuery s roomId date fromTime toTime).length) := by
  unfold checkBookingConflict
  rw [hov]
  rfl

lemma checkBookingConflict_some_zero_eq (s : Store) (roomId date fromTime toTime : Nat)
    (hov : (getRoom s roomId).elim false Room.ignoreConflict = false) :
    checkBookingConflict s roomId date fromTime toTime (some 0) =
      decide (0 < (conflictQuery s roomId date fromTime toTime).length) := by
  unfold checkBookingConflict
  rw [hov]
  rfl

lemma checkBookingConflict_some_ne_eq (s : Store) (roomId date fromTime toTime e : Nat)
    (he : (e != 0) = true)
    (hov : (getRoom s roomId).elim false Room.ignoreConflict = false) :
    checkBookingConflict s roomId date fromTime toTime (some e) =
      decide (0 < ((conflictQuery s roomId date fromTime toTime).filter
        (fun b => b.id != e)).length) := by
  unfold checkBookingConflict
  rw [hov, if_neg Bool.false_ne_true]
  simp only [he, eq_self_iff_true, if_true]

/-- C1: for a room that does not carry the override flag, the detector
reports a conflict exactly when some stored, non-cancelled booking of the
same room and date, other than the excluded one, has a closed interval
meeting the candidate's closed interval (boundary touches included) —
stated over well-formed windows and the identity column's ids (≥ 1). -/
theorem checkBookingConflict_iff_overlap (s : Store)
    (roomId date fromTime toTime : Nat) (excludeId : Option Nat)
    (hover : (getRoom s roomId).map Room.ignoreConflict ≠ some true)
    (hwf : ∀ b ∈ s.bookings, b.bookingFromTime ≤ b.bookingToTime)
    (hc : fromTime ≤ toTime)
    (hid : ∀ b ∈ s.bookings, b.id ≠ 0) :
    checkBookingConflict s roomId date fromTime toTime excludeId = true ↔
      ∃ b ∈ s.bookings, b.roomId = roomId ∧ b.date = date ∧ b.isCancelled = false ∧
        (∀ e, excludeId = some e → b.id ≠ e) ∧
        b.bookingFromTime ≤ toTime ∧ fromTime ≤ b.bookingToTime := by
  have hov : (getRoom s roomId).elim false Room.ignoreConflict = false := by
    cases h : getRoom s roomId with
    | none => rfl
    | some r =>
      rw [h] at hover
      simp only [Option.map_some', ne_eq, Option.some.injEq] at hover
      simp only [Option.elim]
      exact Bool.eq_false_iff.mpr hover
  cases excludeId with
  | none =>
    rw [checkBookingConflict_none_eq s roomId date fromTime toTime hov,
      decide_eq_true_eq, List.length_pos_iff_exists_mem]
    constructor
    · rintro ⟨b, hb⟩
      rw [mem_conflictQuery] at hb
      obtain ⟨hmem, h1, h2, h3, hovl⟩ := hb
      rw [overlapTriple_true_iff _ _ _ _ (hwf b hmem) hc] at hovl
      exact ⟨b, hmem, h1, h2, h3, (fun e he => nomatch he), hovl.1, hovl.2⟩
    · rintro ⟨b, hmem, h1, h2, h3, -, h5, h6⟩
      refine ⟨b, ?_⟩
      rw [mem_conflictQuery]
      exact ⟨hmem, h1, h2, h3,
        (overlapTriple_true_iff _ _ _ _ (hwf b hmem) hc).mpr ⟨h5, h6⟩⟩
  | some e =>
    by_cases he : e = 0
    · subst he
      rw [checkBookingConflict_some_zero_eq s roomId date fromTime toTime hov,
        decide_eq_true_eq, List.length_pos_iff_exists_mem]
      constructor
      · rintro ⟨b, hb⟩
        rw [mem_conflictQuery] at hb
        obtain ⟨hmem, h1, h2, h3, hovl⟩ := hb
        rw [overlapTriple_true_iff _ _ _ _ (hwf b hmem) hc] at hovl
        refine ⟨b, hmem, h1, h2, h3, ?_, hovl.1, hovl.2⟩
        intro e2 he2
        cases he2
        exact hid b hmem
      · rintro ⟨b, hmem, h1, h2, h3, -, h5, h6⟩
        refine ⟨b, ?_⟩
        rw [mem_conflictQuery]
        exact ⟨hmem, h1, h2, h3,
          (overlapTriple_true_iff _ _ _ _ (hwf b hmem) hc).mpr ⟨h5, h6⟩⟩
    · have hne : (e != 0) = true := by simpa using he
      rw [checkBookingConflict_some_ne_eq s roomId date fromTime toTime e hne hov,
        decide_eq_true_eq, List.length_pos_iff_exists_mem]
      constructor
      · rintro ⟨b, hb⟩
        rw [List.mem_filter] at hb
        obtain ⟨hb, hbid⟩ := hb
        rw [mem_conflictQuery] at hb
        obtain ⟨hmem, h1, h2, h3, hovl⟩ := hb
        rw [overlapTriple_true_iff _ _ _ _ (hwf b hmem) hc] at hovl
        refine ⟨b, hmem, h1, h2, h3, ?_, hovl.1, hovl.2⟩
        intro e2 he2
        cases he2
        simpa using hbid
      · rintro ⟨b, hmem, h1, h2, h3, h4, h5, h6⟩
        refine ⟨b, ?_⟩
        rw [List.mem_filter]
        constructor
        · rw [mem_conflictQuery]
          exact ⟨hmem, h1, h2, h3,
            (overlapTriple_true_iff _ _ _ _ (hwf b hmem) hc).mpr ⟨h5, h6⟩⟩
        · simpa using h4 e rfl

/-- Witness for C1: the stored 09:00-10:00 booking and a candidate
10:00-11:00 touching it at the boundary, with an exclusion id that names a
different booking; both sides of the equivalence are checked at this
input. -/
theorem checkBookingConflict_iff_overlap_witness :
    (getRoom plainStore 1).map Room.ignoreConflict ≠ some true ∧
    (∀ b ∈ plainStore.bookings, b.bookingFromTime ≤ b.bookingToTime) ∧
    600 ≤ 660 ∧
    (∀ b ∈ plainStore.bookings, b.id ≠ 0) ∧
    (checkBookingConflict plainStore 1 100 600 660 (some 9) = true ↔
      ∃ b ∈ plainStore.bookings, b.roomId = 1 ∧ b.date = 100 ∧ b.isCancelled = false ∧
        (∀ e, (some 9 : Option Nat) = some e → b.id ≠ e) ∧
        b.bookingFromTime ≤ 660 ∧ 600 ≤ b.bookingToTime) :=
  ⟨by decide, by decide, by decide, by decide,
    checkBookingConflict_iff_overlap plainStore 1 100 600 660 (some 9)
      (by decide) (by decide) (by decide) (by decide)⟩

/-! ### Structure of the recurrence loop -/

lemma override_elim_false (s : Store) (roomId : Nat)
    (hover : (getRoom s roomId).map Room.ignoreConflict ≠ some true) :
    (getRoom s roomId).elim false Room.ignoreConflict = false := by
  cases h : getRoom s roomId with
  | none => rfl
  | some r =>
    rw [h] at hover
    simp only [Option.map_some', ne_eq, Option.some.injEq] at hover
    simp only [Option.elim]
    exact Bool.eq_false_iff.mpr hover

lemma template_self_conflict (s : Store) (orig : Booking)
    (h1 : orig ∈ s.bookings) (h2 : orig.isCancelled = false)
    (h3 : (getRoom s orig.roomId).elim false Room.ignoreConflict = false) :
    checkBookingConflict s orig.roomId orig.date
      orig.bookingFromTime orig.bookingToTime none = true := by
  rw [checkBookingConflict_none_eq s orig.roomId orig.date
    orig.bookingFromTime orig.bookingToTime h3, decide_eq_true_eq,
    List.length_pos_iff_exists_mem]
  refine ⟨orig, ?_⟩
  rw [mem_conflictQuery]
  exact ⟨h1, rfl, rfl, h2, self_overlap _ _⟩

lemma repeatGo_extends (orig : Booking) (startDate : Nat) (p : String) :
    ∀ (l : List Nat) (s : Store) (created : List Booking),
      ∃ news : List Booking,
        (repeatGo orig startDate p l s created).2 = created ++ news ∧
        (repeatGo orig startDate p l s created).1.bookings = s.bookings ++ news ∧
        (repeatGo orig startDate p l s created).1.rooms = s.rooms ∧
        ∀ b ∈ news, copiesTemplate orig b ∧
          ∃ i ∈ l, includeOffset p startDate i = true ∧ b.date = startDate + i := by
  intro l
  induction l with
  | nil =>
    intro s created
    exact ⟨[], by simp [repeatGo], by simp [repeatGo], rfl, by simp⟩
  | cons i rest ih =>
    intro s created
    by_cases hc1 : (p == "weekdays" && isWeekend (startDate + i)) = true
    · have hstep : repeatGo orig startDate p (i :: rest) s created =
          repeatGo orig startDate p rest s created := by
        simp only [repeatGo]
        rw [if_pos hc1]
      obtain ⟨news, e1, e2, e3, hf⟩ := ih s created
      refine ⟨news, ?_, ?_, ?_, ?_⟩
      · rw [hstep]; exact e1
      · rw [hstep]; exact e2
      · rw [hstep]; exact e3
      · intro b hb
        obtain ⟨hcopy, j, hj, hji, hjd⟩ := hf b hb
        exact ⟨hcopy, j, List.mem_cons_of_mem i hj, hji, hjd⟩
    · by_cases hc2 : (p == "weekly" && i % 7 != 0) = true
      · have hstep : repeatGo orig startDate p (i :: rest) s created =
            repeatGo orig startDate p rest s created := by
          simp only [repeatGo]
          rw [if_neg hc1, if_pos hc2]
        obtain ⟨news, e1, e2, e3, hf⟩ := ih s created
        refine ⟨news, ?_, ?_, ?_, ?_⟩
        · rw [hstep]; exact e1
        · rw [hstep]; exact e2
        · rw [hstep]; exact e3
        · intro b hb
          obtain ⟨hcopy, j, hj, hji, hjd⟩ := hf b hb
          exact ⟨hcopy, j, List.mem_cons_of_mem i hj, hji, hjd⟩
      · by_cases hcf : checkBookingConflict s orig.roomId (startDate + i)
            orig.bookingFromTime orig.bookingToTime none = true
        · have hstep : repeatGo orig startDate p (i :: rest) s created =
              repeatGo orig startDate p rest s created := by
            simp only [repeatGo]
            rw [if_neg hc1, if_neg hc2, if_pos hcf]
          obtain ⟨news, e1, e2, e3, hf⟩ := ih s created
          refine ⟨news, ?_, ?_, ?_, ?_⟩
          · rw [hstep]; exact e1
          · rw [hstep]; exact e2
          · rw [hstep]; exact e3
          · intro b hb
            obtain ⟨hcopy, j, hj, hji, hjd⟩ := hf b hb
            exact ⟨hcopy, j, List.mem_cons_of_mem i hj, hji, hjd⟩
        · have hstep : repeatGo orig startDate p (i :: rest) s created =
              repeatGo orig startDate p rest
                (createBooking s (candidateOf orig (startDate + i))).1
                (created ++ [(createBooking s (candidateOf orig (startDate + i))).2]) := by
            simp only [repeatGo]
            rw [if_neg hc1, if_neg hc2, if_neg hcf]
          obtain ⟨news, e1, e2, e3, hf⟩ :=
            ih (createBooking s (candidateOf orig (startDate + i))).1
              (created ++ [(createBooking s (candidateOf orig (startDate + i))).2])
          refine ⟨(createBooking s (candidateOf orig (startDate + i))).2 :: news,
            ?_, ?_, ?_, ?_⟩
          · rw [hstep, e1]; simp
          · rw [hstep, e2]; simp [createBooking]
          · rw [hstep, e3]; rfl
          · intro b hb
            rcases List.mem_cons.mp hb with hbeq | hbnews
            · subst hbeq
              refine ⟨⟨rfl, rfl, rfl, rfl, rfl, rfl, rfl, rfl, rfl, rfl⟩,
                i, List.mem_cons_self i rest, ?_, rfl⟩
              simp [includeOffset, Bool.eq_false_iff.mpr hc1, Bool.eq_false_iff.mpr hc2]
            · obtain ⟨hcopy, j, hj, hji, hjd⟩ := hf b hbnews
              exact ⟨hcopy, j, List.mem_cons_of_mem i hj, hji, hjd⟩

lemma repeatGo_all_conflict (orig : Booking) (startDate : Nat) (p : String) :
    ∀ (l : List Nat) (s : Store) (created : List Booking),
      (∀ i ∈ l, includeOffset p startDate i = true →
        checkBookingConflict s orig.roomId (startDate + i)
          orig.bookingFromTime orig.bookingToTime none = true) →
      repeatGo orig startDate p l s created = (s, created) := by
  intro l
  induction l with
  | nil => intro s created _; rfl
  | cons i rest ih =>
    intro s created h
    simp only [repeatGo]
    by_cases hc1 : (p == "weekdays" && isWeekend (startDate + i)) = true
    · rw [if_pos hc1]
      exact ih s created (fun j hj hinc => h j (List.mem_cons_of_mem i hj) hinc)
    · rw [if_neg hc1]
      by_cases hc2 : (p == "weekly" && i % 7 != 0) = true
      · rw [if_pos hc2]
        exact ih s created (fun j hj hinc => h j (List.mem_cons_of_mem i hj) hinc)
      · rw [if_neg hc2]
        have hinc : includeOffset p startDate i = true := by
          simp [includeOffset, Bool.eq_false_iff.mpr hc1, Bool.eq_false_iff.mpr hc2]
        rw [if_pos (h i (List.mem_cons_self i rest) hinc)]
        exact ih s created (fun j hj hinc2 => h j (List.mem_cons_of_mem i hj) hinc2)

lemma repeatGo_skips_template_date (orig : Booking) (startDate : Nat) (p : String) :
    ∀ (l : List Nat) (s : Store) (created : List Booking),
      orig ∈ s.bookings → orig.isCancelled = false →
      (getRoom s orig.roomId).elim false Room.ignoreConflict = false →
      ∀ b ∈ (repeatGo orig startDate p l s created).2,
        b ∈ created ∨ b.date ≠ orig.date := by
  intro l
  induction l with
  | nil => intro s created _ _ _ b hb; exact Or.inl hb
  | cons i rest ih =>
    intro s created h1 h2 h3 b
    simp only [repeatGo]
    by_cases hc1 : (p == "weekdays" && isWeekend (startDate + i)) = true
    · rw [if_pos hc1]
      exact ih s created h1 h2 h3 b
    · rw [if_neg hc1]
      by_cases hc2 : (p == "weekly" && i % 7 != 0) = true
      · rw [if_pos hc2]
        exact ih s created h1 h2 h3 b
      · rw [if_neg hc2]
        by_cases hcf : checkBookingConflict s orig.roomId (startDate + i)
            orig.bookingFromTime orig.bookingToTime none = true
        · rw [if_pos hcf]
          exact ih s created h1 h2 h3 b
        · rw [if_neg hcf]
          intro hb
          have h1b : orig ∈ ((createBooking s (candidateOf orig (startDate + i))).1).bookings :=
            List.mem_append_left _ h1
          have h3b : (getRoom (createBooking s (candidateOf orig (startDate + i))).1
              orig.roomId).elim false Room.ignoreConflict = false := h3
          rcases ih (createBooking s (candidateOf orig (startDate + i))).1
              (created ++ [(createBooking s (candidateOf orig (startDate + i))).2])
              h1b h2 h3b b hb with hin | hne
          · rcases List.mem_append.mp hin with hold | hnew
            · exact Or.inl hold
            · right
              have hbd : b.date = startDate + i := by
                rw [List.mem_singleton.mp hnew]
                rfl
              intro heq
              apply hcf
              have : startDate + i = orig.date := by rw [← hbd, heq]
              rw [this]
              exact template_self_conflict s orig h1 h2 h3
          · exact Or.inr hne

lemma createRepeatBookings_found (s : Store) (id fromDate toDate : Nat) (p : String)
    (orig : Booking) (hfind : getBooking s id = some orig) (hge : fromDate ≤ toDate) :
    createRepeatBookings s id fromDate toDate p =
      ((repeatGo orig fromDate p (List.range (toDate - fromDate + 1)) s []).1,
        Except.ok (repeatGo orig fromDate p (List.range (toDate - fromDate + 1)) s []).2) := by
  have hnneg : ¬ ((toDate : Int) - (fromDate : Int) < 0) := by omega
  simp only [createRepeatBookings, hfind, if_neg hnneg]

/-! ### Occurrence selection (C4) -/

/-- C4: per day offset from `fromDate`, the `daily` pattern includes every
offset, `weekdays` includes an offset exactly when the resulting date
falls on Monday through Friday, and `weekly` includes exactly the offsets
divisible by 7 (anchored at `fromDate`); concretely, the weekly expansion
over 2024-01-01 .. 2024-01-22 yields exactly the occurrence dates
Jan 1, Jan 8, Jan 15 and Jan 22. -/
theorem pattern_selects_offsets (startDate i : Nat) :
    includeOffset "daily" startDate i = true ∧
    (includeOffset "weekdays" startDate i = true ↔
      (1 ≤ getDay (startDate + i) ∧ getDay (startDate + i) ≤ 5)) ∧
    (includeOffset "weekly" startDate i = true ↔ i % 7 = 0) ∧
    (createRepeatBookings freeStore 1 (rataDie 2024 1 1) (rataDie 2024 1 22) "weekly").2.map
        (List.map Booking.date) =
      Except.ok [rataDie 2024 1 1, rataDie 2024 1 8, rataDie 2024 1 15, rataDie 2024 1 22] := by
  refine ⟨rfl, ?_, ?_, rfl⟩
  · have hw : includeOffset "weekdays" startDate i = !(isWeekend (startDate + i)) := by
      simp [includeOffset]
    rw [hw, show ((!isWeekend (startDate + i)) = true ↔ isWeekend (startDate + i) = false) from
      by cases isWeekend (startDate + i) <;> simp]
    simp only [isWeekend, getDay, Bool.or_eq_false_iff, beq_eq_false_iff_ne, ne_eq]
    omega
  · have hw : includeOffset "weekly" startDate i = !(i % 7 != 0) := by
      simp [includeOffset]
    rw [hw]
    by_cases h : i % 7 = 0 <;> simp [h]

/-! ### All-conflict expansion (C6) -/

/-- Counterexample for C6 as stated: over `fullStore` both generated dates
of the two-day daily expansion conflict and are skipped, yet the response
contains no per-date outcome entries: its only item list (the created
bookings, whose length the count reports) is empty instead of holding one
`Skipped` entry per generated date. -/
theorem repeat_outcome_has_no_skipped_items :
    createRepeatBookings fullStore 1 jan1 (jan1 + 1) "daily" = (fullStore, Except.ok []) ∧
    ((List.range 2).filter (fun i => includeOffset "daily" jan1 i)).length = 2 :=
  ⟨rfl, rfl⟩

/-- C6 (amended): when every included occurrence date of the range
conflicts with a stored reservation, the repeat operation creates nothing:
the store is returned unchanged (zero insertions) and the response carries
the empty created list, so the reported count is 0 — the code does not
itemize the skipped dates in its response. -/
theorem repeat_all_conflicts_creates_nothing (s : Store) (id fromDate toDate : Nat)
    (p : String) (orig : Booking)
    (hfind : getBooking s id = some orig) (hge : fromDate ≤ toDate)
    (hconf : ∀ i < toDate - fromDate + 1, includeOffset p fromDate i = true →
      checkBookingConflict s orig.roomId (fromDate + i)
        orig.bookingFromTime orig.bookingToTime none = true) :
    createRepeatBookings s id fromDate toDate p = (s, Except.ok []) := by
  rw [createRepeatBookings_found s id fromDate toDate p orig hfind hge,
    repeatGo_all_conflict orig fromDate p (List.range (toDate - fromDate + 1)) s []
      (fun i hi hinc => hconf i (List.mem_range.mp hi) hinc)]

/-- Witness for C6 (amended): the two-day all-conflict expansion over
`fullStore`, with every hypothesis checked concretely. -/
theorem repeat_all_conflicts_creates_nothing_witness :
    getBooking fullStore 1 = some (mkBooking 1 jan1 540 600 1 false) ∧
    jan1 ≤ jan1 + 1 ∧
    (∀ i < jan1 + 1 - jan1 + 1, includeOffset "daily" jan1 i = true →
      checkBookingConflict fullStore (mkBooking 1 jan1 540 600 1 false).roomId (jan1 + i)
        (mkBooking 1 jan1 540 600 1 false).bookingFromTime
        (mkBooking 1 jan1 540 600 1 false).bookingToTime none = true) ∧
    createRepeatBookings fullStore 1 jan1 (jan1 + 1) "daily" = (fullStore, Except.ok []) :=
  ⟨by decide, by decide, by decide,
    repeat_all_conflicts_creates_nothing fullStore 1 jan1 (jan1 + 1) "daily"
      (mkBooking 1 jan1 540 600 1 false) (by decide) (by decide) (by decide)⟩

/-! ### Field copying and the template (C7) -/

/-- Counterexample for C7 as stated: the template's room in
`overrideTemplateStore` ignores conflicts, so the one-day expansion over
the template's own date inserts a verbatim copy carrying that very date —
the template is duplicated with its own date. -/
theorem repeat_duplicates_template_date :
    (createRepeatBookings overrideTemplateStore 1 jan1 jan1 "daily").2 =
      Except.ok [mkBooking 2 jan1 540 600 7 false] ∧
    getBooking overrideTemplateStore 1 = some (mkBooking 1 jan1 540 600 7 false) ∧
    (mkBooking 2 jan1 540 600 7 false).date = (mkBooking 1 jan1 540 600 7 false).date ∧
    copiesTemplate (mkBooking 1 jan1 540 600 7 false) (mkBooking 2 jan1 540 600 7 false) :=
  ⟨rfl, by decide, by decide, by decide⟩

/-- C7 (amended): every created occurrence copies the template's ten
listed fields verbatim, its date being an included occurrence date of the
range; the stored rows — the template among them — survive unchanged, with
the created rows appended after them; and provided the template is stored
non-cancelled in a room that does not ignore conflicts, no occurrence is
created carrying the template's own date (that duplicate is fended off
only by conflict detection, as the counterexample shows). -/
theorem repeat_copies_fields_and_spares_template (s : Store) (id fromDate toDate : Nat)
    (p : String) (orig : Booking)
    (hfind : getBooking s id = some orig) (hge : fromDate ≤ toDate)
    (hcan : orig.isCancelled = false)
    (hover : (getRoom s orig.roomId).map Room.ignoreConflict ≠ some true) :
    ∃ news : List Booking,
      (createRepeatBookings s id fromDate toDate p).2 = Except.ok news ∧
      (createRepeatBookings s id fromDate toDate p).1.bookings = s.bookings ++ news ∧
      ∀ b ∈ news, copiesTemplate orig b ∧ b.date ≠ orig.date ∧
        ∃ i < toDate - fromDate + 1, includeOffset p fromDate i = true ∧
          b.date = fromDate + i := by
  have horig : orig ∈ s.bookings := List.mem_of_find?_eq_some hfind
  have hov : (getRoom s orig.roomId).elim false Room.ignoreConflict = false :=
    override_elim_false s orig.roomId hover
  obtain ⟨news, e1, e2, e3, hf⟩ :=
    repeatGo_extends orig fromDate p (List.range (toDate - fromDate + 1)) s []
  have hskip := repeatGo_skips_template_date orig fromDate p
    (List.range (toDate - fromDate + 1)) s [] horig hcan hov
  refine ⟨news, ?_, ?_, ?_⟩
  · rw [createRepeatBookings_found s id fromDate toDate p orig hfind hge]
    rw [e1]
    rfl
  · rw [createRepeatBookings_found s id fromDate toDate p orig hfind hge]
    exact e2
  · intro b hb
    have hbr : b ∈ (repeatGo orig fromDate p
        (List.range (toDate - fromDate + 1)) s []).2 := by
      rw [e1]
      exact List.mem_append_right _ hb
    obtain ⟨hcopy, j, hj, hji, hjd⟩ := hf b (by rw [e1] at hbr; simpa using hbr)
    refine ⟨hcopy, ?_, j, List.mem_range.mp hj, hji, hjd⟩
    rcases hskip b hbr with hfalse | hne
    · exact absurd hfalse (List.not_mem_nil b)
    · exact hne

/-- Witness for C7 (amended): a two-day expansion from the template's own
date in `templateStore`; the theorem applies with every hypothesis checked
concretely. -/
theorem repeat_copies_fields_and_spares_template_witness :
    getBooking templateStore 1 = some (mkBooking 1 jan1 540 600 1 false) ∧
    jan1 ≤ jan1 + 1 ∧
    (mkBooking 1 jan1 540 600 1 false).isCancelled = false ∧
    (getRoom templateStore (mkBooking 1 jan1 540 600 1 false).roomId).map
      Room.ignoreConflict ≠ some true ∧
    (∃ news : List Booking,
      (createRepeatBookings templateStore 1 jan1 (jan1 + 1) "daily").2 = Except.ok news ∧
      (createRepeatBookings templateStore 1 jan1 (jan1 + 1) "daily").1.bookings =
        templateStore.bookings ++ news ∧
      ∀ b ∈ news, copiesTemplate (mkBooking 1 jan1 540 600 1 false) b ∧
        b.date ≠ (mkBooking 1 jan1 540 600 1 false).date ∧
        ∃ i < jan1 + 1 - jan1 + 1, includeOffset "daily" jan1 i = true ∧
          b.date = jan1 + i) :=
  ⟨by decide, by decide, by decide, by decide,
    repeat_copies_fields_and_spares_template templateStore 1 jan1 (jan1 + 1) "daily"
      (mkBooking 1 jan1 540 600 1 false) (by decide) (by decide) (by decide) (by decide)⟩
